import Mathlib

/-!
Verification development for the hardbus header (src/hardbus.h), a D-Bus
based IPC layer generating, per service description, an export adaptor, an
an import proxy and a local facade. The definitions below are a shallow
embedding of the connection lifecycle functions, the call marshalling
helpers, the export adaptor construction and the signal relay wiring of
that header; theorems settle the frozen claims against them.
-/

namespace Hardbus

/-! ## Value universe and the codec customization point

The C++ layer transports every argument and return value as a QString.
Types are a compile-time notion there; here they are reflected as the
finite universe HType of representative transported types, with HVal the
corresponding values. HType.unit plays the role of the C++ void return
(the "no value" case of the spec). -/

/-- Representative types appearing in method and signal signatures. -/
inductive HType where
  | int
  | str
  | bool
  | unit
deriving DecidableEq

/-- Values of the representative types. -/
inductive HVal where
  | int (i : Int)
  | str (s : String)
  | bool (b : Bool)
  | unit
deriving DecidableEq

/-- The type of a value. -/
def HVal.typeOf : HVal → HType
  | .int _ => .int
  | .str _ => .str
  | .bool _ => .bool
  | .unit => .unit

/-- Embedding of hardbus::ProxyStringConverter, the customization point:
a registered family of encode (ToString) and decode (FromString) functions.
In C++ FromString is selected by the static target type; here the target
type is passed explicitly. -/
structure ProxyStringConverter where
  ToString : HVal → String
  FromString : HType → String → HVal

/-- Embedding of hardbus::internal::ToProxyString, which delegates to the
registered converter. -/
def ToProxyString (c : ProxyStringConverter) (v : HVal) : String :=
  c.ToString v

/-- Embedding of hardbus::internal::FromProxyString, which delegates to the
registered converter for the target type. -/
def FromProxyString (c : ProxyStringConverter) (t : HType) (s : String) : HVal :=
  c.FromString t s

/-- The round-trip law of the spec for a registered converter family:
decoding the encoding of a value at the type of that value yields the value
back. -/
def RoundTripLaw (c : ProxyStringConverter) : Prop :=
  ∀ v : HVal, FromProxyString c v.typeOf (ToProxyString c v) = v

/-! ## A concrete registered converter family

The repository declares ProxyStringConverter but ships no specialization:
registrations live in user code. The family below is modelled from the
spec contract (section 4.1): per-type encode/decode with the no-value case
encoding to an empty payload and decoding without consuming input. -/

/-- Decimal digit to its character. Inputs above nine are clamped; the
round-trip lemmas only use digits below ten. -/
def digitToChar : Nat → Char
  | 0 => '0'
  | 1 => '1'
  | 2 => '2'
  | 3 => '3'
  | 4 => '4'
  | 5 => '5'
  | 6 => '6'
  | 7 => '7'
  | 8 => '8'
  | _ => '9'

/-- Character back to its decimal digit; non-digit characters map to 0. -/
def charToDigit (ch : Char) : Nat :=
  if ch = '1' then 1
  else if ch = '2' then 2
  else if ch = '3' then 3
  else if ch = '4' then 4
  else if ch = '5' then 5
  else if ch = '6' then 6
  else if ch = '7' then 7
  else if ch = '8' then 8
  else if ch = '9' then 9
  else 0

/-- Natural number to its decimal string (zero encodes to the empty
string). -/
def natToString (n : Nat) : String :=
  String.mk ((Nat.digits 10 n).reverse.map digitToChar)

/-- Decimal character list back to a natural number. -/
def charsToNat (cs : List Char) : Nat :=
  Nat.ofDigits 10 (cs.reverse.map charToDigit)

/-- Decimal string back to a natural number. -/
def stringToNat (s : String) : Nat :=
  charsToNat s.data

/-- Integer to string: a leading minus sign for negative values. -/
def intToString : Int → String
  | Int.ofNat n => natToString n
  | Int.negSucc n => String.mk ('-' :: (natToString (n + 1)).data)

/-- String back to an integer: a leading minus sign marks a negative
value. -/
def stringToInt (s : String) : Int :=
  if s.data.head? = some '-' then - Int.ofNat (charsToNat s.data.tail)
  else Int.ofNat (stringToNat s)

theorem charToDigit_digitToChar {d : Nat} (h : d < 10) :
    charToDigit (digitToChar d) = d := by
  interval_cases d <;> decide

theorem digitToChar_ne_dash (d : Nat) : digitToChar d ≠ '-' := by
  match d with
  | 0 => decide
  | 1 => decide
  | 2 => decide
  | 3 => decide
  | 4 => decide
  | 5 => decide
  | 6 => decide
  | 7 => decide
  | 8 => decide
  | n + 9 =>
    show ('9' : Char) ≠ '-'
    decide

theorem charsToNat_natToString (n : Nat) :
    charsToNat (natToString n).data = n := by
  show Nat.ofDigits 10
      ((((Nat.digits 10 n).reverse.map digitToChar)).reverse.map charToDigit) = n
  rw [List.map_reverse, List.map_map, List.map_reverse, List.reverse_reverse]
  have hcongr : (Nat.digits 10 n).map (charToDigit ∘ digitToChar)
      = (Nat.digits 10 n).map id := by
    apply List.map_congr_left
    intro d hd
    exact charToDigit_digitToChar (Nat.digits_lt_base (by norm_num) hd)
  rw [hcongr, List.map_id]
  exact Nat.ofDigits_digits 10 n

theorem natToString_no_dash (n : Nat) :
    ∀ ch ∈ (natToString n).data, ch ≠ '-' := by
  intro ch hch
  have hch2 : ch ∈ (Nat.digits 10 n).reverse.map digitToChar := hch
  rw [List.mem_map] at hch2
  obtain ⟨d, _, rfl⟩ := hch2
  exact digitToChar_ne_dash d

theorem stringToInt_intToString (i : Int) :
    stringToInt (intToString i) = i := by
  cases i with
  | ofNat n =>
    unfold intToString stringToInt
    have hne : (natToString n).data.head? ≠ some '-' := by
      cases hdata : (natToString n).data with
      | nil => simp
      | cons ch rest =>
        have : ch ≠ '-' := by
          apply natToString_no_dash n
          rw [hdata]
          exact List.mem_cons_self ch rest
        simp [this]
    rw [if_neg hne]
    rw [show stringToNat (natToString n) = n from charsToNat_natToString n]
  | negSucc n =>
    unfold intToString stringToInt
    have hdata : (String.mk ('-' :: (natToString (n + 1)).data)).data
        = '-' :: (natToString (n + 1)).data := rfl
    rw [hdata]
    simp only [List.head?, List.tail]
    rw [if_pos trivial]
    rw [charsToNat_natToString (n + 1), Int.negSucc_eq]
    simp

/-- Encoding of the representative values: decimal for integers, identity
for strings, the words true and false for booleans, and the empty payload
for the no-value case. -/
def encodeVal : HVal → String
  | .int i => intToString i
  | .str s => s
  | .bool b => if b then "true" else "false"
  | .unit => ""

/-- Decoding of the representative values, directed by the target type.
The no-value case consumes no input. -/
def decodeVal : HType → String → HVal
  | .int, s => .int (stringToInt s)
  | .str, s => .str s
  | .bool, s => if s = "true" then .bool true else .bool false
  | .unit, _ => .unit

/-- Modelled from the spec: the repository only declares the
ProxyStringConverter customization point (src/hardbus.h line 96) and ships
no specialization, so the registered codecs live outside src/. This family
registers representative codecs for int, string, bool and the no-value
case following the contract of spec section 4.1. -/
def DefaultConverter : ProxyStringConverter :=
  ⟨encodeVal, decodeVal⟩

/-- Claim C4: for every registered value type T and every value v of type
T, decoding the encoding of v yields v back. Proved for the modelled
registered converter family covering int, string, bool and the no-value
case. -/
theorem default_converter_roundtrip : RoundTripLaw DefaultConverter := by
  intro v
  cases v with
  | int i =>
    show HVal.int (stringToInt (intToString i)) = HVal.int i
    rw [stringToInt_intToString]
  | str s => rfl
  | bool b => cases b <;> decide
  | unit => rfl

/-! ## Connection lifecycle

Embedding of the Traits structure generated by
HARDBUS_INTERNAL_DEFINE_TRAITS_, of the QDBusConnection state consulted by
IsServiceRegistered, and of the lifecycle functions hardbus::ConnectService,
hardbus::WaitForServiceRegistration, hardbus::WaitAndConnectService together
with the statics generated into the service struct by
HARDBUS_DEFINE_SERVICE. -/

/-- The bus-visible state consulted by the lifecycle: the set of service
names currently owned on the connection. -/
structure BusState where
  registeredServices : List String
deriving DecidableEq

/-- The per-service Traits generated by HARDBUS_INTERNAL_DEFINE_TRAITS_:
service name, object path and interface name (the connection selector is
carried by BusState here). -/
structure Traits where
  dbus_service_name : String
  dbus_service_path : String
  dbus_service_interface : String
deriving DecidableEq

/-- The import adaptor object constructed by ConnectService: a
QDBusAbstractInterface built from the service name, path and interface of
the Traits. -/
structure ImportAdaptor where
  service : String
  path : String
  interface_ : String
deriving DecidableEq

/-- Construction of ImportAdaptorForTAG from the Traits, as performed by
the generated constructor. -/
def ImportAdaptorCtor (tr : Traits) : ImportAdaptor :=
  ⟨tr.dbus_service_name, tr.dbus_service_path, tr.dbus_service_interface⟩

/-- The AccessForTAG part of a facade object: its dbus_interface_ member,
null (none) on construction. -/
structure Access where
  dbus_interface_ : Option ImportAdaptor
deriving DecidableEq

/-- A facade object as seen through an interface pointer. isAccessInstance
models whether the qobject_cast to AccessForTAG succeeds; access is the
AccessForTAG state when it does. -/
structure ServiceObject where
  isAccessInstance : Bool
  access : Access
deriving DecidableEq

/-- The three qWarning messages the lifecycle can emit. -/
inductive Warn where
  | serviceNotRegistered (service_name : String)
  | wrongInstance (service_name : String)
  | reconnect (service_name : String)
deriving DecidableEq

/-- Result of a connect call: the returned bool, the warning emitted on
failure, and the facade object state afterwards. -/
structure ConnectOutcome where
  ret : Bool
  warn : Option Warn
  svc : ServiceObject
deriving DecidableEq

/-- Embedding of hardbus::IsServiceRegistered: a synchronous query of the
bus for ownership of the service name; no state change. -/
def IsServiceRegistered (bus : BusState) (service_name : String) : Bool :=
  bus.registeredServices.contains service_name

/-- Embedding of hardbus::WaitForServiceRegistration: blocks the calling
event loop until the service name appears on the bus, then returns true.
It always returns true; the bus state may change again between its return
and any later step, which is why the lifecycle functions below take the
bus state at the moment they consult it. -/
def WaitForServiceRegistration : Bool :=
  true

/-- Embedding of hardbus::ConnectService: checks registration of the
service name on the bus, casts the interface pointer to the access type,
rejects an already-connected facade, and otherwise installs a freshly
constructed import adaptor into dbus_interface_. -/
def ConnectService (tr : Traits) (bus : BusState) (svc : ServiceObject) :
    ConnectOutcome :=
  if !IsServiceRegistered bus tr.dbus_service_name then
    ⟨false, some (Warn.serviceNotRegistered tr.dbus_service_name), svc⟩
  else if !svc.isAccessInstance then
    ⟨false, some (Warn.wrongInstance tr.dbus_service_name), svc⟩
  else if (svc.access.dbus_interface_).isSome then
    ⟨false, some (Warn.reconnect tr.dbus_service_name), svc⟩
  else
    ⟨true, none, { svc with access := ⟨some (ImportAdaptorCtor tr)⟩ }⟩

/-- Embedding of hardbus::WaitAndConnectService (the template at the
bottom of the public section): WaitForServiceRegistration(traits) and-then
ConnectService(service, traits). The bus argument is the bus state at the
moment ConnectService runs, which the wait does not pin down. -/
def WaitAndConnectService (tr : Traits) (busAtConnect : BusState)
    (svc : ServiceObject) : ConnectOutcome :=
  if WaitForServiceRegistration then ConnectService tr busAtConnect svc
  else ⟨false, none, svc⟩

/-- Stated from the words of spec section 4.6 for comparison:
WaitAndConnect(facade) is WaitForServiceRegistration followed by Connect,
composite and not atomic, so the connect step runs against the bus state
at connect time. -/
def WaitAndConnectSpec (tr : Traits) (busAtConnect : BusState)
    (svc : ServiceObject) : ConnectOutcome :=
  ConnectService tr busAtConnect svc

namespace ServiceDef

/-- Embedding of the CreateServiceInterface static generated by
HARDBUS_DEFINE_SERVICE: a freshly constructed AccessForTAG with
dbus_interface_ null. -/
def CreateServiceInterface : ServiceObject :=
  ⟨true, ⟨none⟩⟩

/-- Embedding of the WaitAndConnectService static generated by
HARDBUS_DEFINE_SERVICE: waits for the service, casts, rejects a
reconnect, and installs a fresh import adaptor. Unlike the template
hardbus::ConnectService it performs no IsServiceRegistered check after
the wait. -/
def WaitAndConnectService (tr : Traits) (svc : ServiceObject) :
    ConnectOutcome :=
  if !svc.isAccessInstance then
    ⟨false, some (Warn.wrongInstance tr.dbus_service_name), svc⟩
  else if (svc.access.dbus_interface_).isSome then
    ⟨false, some (Warn.reconnect tr.dbus_service_name), svc⟩
  else
    ⟨true, none, { svc with access := ⟨some (ImportAdaptorCtor tr)⟩ }⟩

/-- Embedding of the CreateAndConnectService static generated by
HARDBUS_DEFINE_SERVICE: creates the facade, calls WaitAndConnectService on
it with the returned bool discarded, and returns the facade pointer, whose
pointee is the post-connect object state. -/
def CreateAndConnectService (tr : Traits) : ServiceObject :=
  let service := CreateServiceInterface
  (WaitAndConnectService tr service).svc

end ServiceDef

/-! ## Call marshalling

Embedding of the method bodies generated by HARDBUS_INTERNAL_ACCESS_FUNC_
(facade side, ProxyCallHelper2 with ToProxyConverter arguments and
FromProxyConverter return), HARDBUS_INTERNAL_IMPORT_FUNC_ (import side,
CallFuncOverDBus) and HARDBUS_INTERNAL_EXPORT_FUNC_ (export side,
ProxyCallHelper1 with FromProxyConverter arguments and ToProxyConverter
return). A method signature is a list of argument types plus a return
type; HType.unit stands for a void return, for which
CreaeteFromReturnValue yields a default-constructed converter (empty
payload) on the export side and ReturnValueOrVoid discards the reply on
the facade side. -/

/-- Decoding of the string arguments of a call at the declared parameter
types, one FromProxyConverter conversion per argument. -/
def decodeArgs (c : ProxyStringConverter) (tys : List HType)
    (strArgs : List String) : List HVal :=
  (tys.zip strArgs).map fun p => FromProxyString c p.1 p.2

/-- Embedding of the export adaptor slot generated by
HARDBUS_INTERNAL_EXPORT_FUNC_: decode each string argument at its declared
parameter type, invoke the concrete implementation, and encode its return
value as the string reply; a void return replies with the empty payload of
a default-constructed ToProxyConverter. -/
def ExportFunc (c : ProxyStringConverter) (impl : List HVal → HVal)
    (argTys : List HType) (retTy : HType) (strArgs : List String) : String :=
  let r := impl (decodeArgs c argTys strArgs)
  if retTy = HType.unit then "" else ToProxyString c r

/-- Embedding of the import adaptor method generated by
HARDBUS_INTERNAL_IMPORT_FUNC_: CallFuncOverDBus dispatches the named call
with its string arguments over the bus and yields the string reply. The
busDispatch parameter is the transport route that ends at the registered
export adaptor slot of that name. -/
def ImportFunc (busDispatch : String → List String → String)
    (func_name : String) (strArgs : List String) : String :=
  busDispatch func_name strArgs

/-- Embedding of the facade method generated by
HARDBUS_INTERNAL_ACCESS_FUNC_. ProxyCallHelper2 throws a service not
registered exception when dbus_interface_ is null; otherwise each typed
argument is encoded through ToProxyConverter, the import adaptor method
dispatches the call, and the reply is decoded through FromProxyConverter
at the declared return type, or discarded by ReturnValueOrVoid for a void
return. -/
def AccessFunc (c : ProxyStringConverter) (retTy : HType)
    (svc : ServiceObject) (func_name : String)
    (busDispatch : String → List String → String) (args : List HVal) :
    Except String HVal :=
  match svc.access.dbus_interface_ with
  | none => Except.error "service not registered"
  | some _ =>
    let reply := ImportFunc busDispatch func_name (args.map (ToProxyString c))
    if retTy = HType.unit then Except.ok HVal.unit
    else Except.ok (FromProxyString c retTy reply)

/-! ## Signal relay

Embedding of hardbus::internal::MakeProxyConnector: a QObject::connect of
the source signal to a lambda that re-emits the paired target signal with
each argument converted through the PROXY converter, one target emission
per source firing, synchronously. MakeProxyConnector2 is the export side
(typed to string); MakeProxyConnector1 is the import side (string back to
typed, at the declared signal parameter types). A firing trace is a list
of events in firing order. -/

/-- One signal firing: the signal name and its argument values. -/
structure SignalEvent (α : Type) where
  name : String
  args : List α
deriving DecidableEq

/-- The single target emission MakeProxyConnector2 produces for one source
firing on the implementation: same signal, arguments encoded. -/
def MakeProxyConnector2Emit (c : ProxyStringConverter)
    (e : SignalEvent HVal) : SignalEvent String :=
  ⟨e.name, e.args.map (ToProxyString c)⟩

/-- The single target emission MakeProxyConnector1 produces for one bus
delivered firing: same signal, arguments decoded at the declared
parameter types of that signal. -/
def MakeProxyConnector1Emit (c : ProxyStringConverter)
    (sigTys : String → List HType) (e : SignalEvent String) :
    SignalEvent HVal :=
  ⟨e.name, decodeArgs c (sigTys e.name) e.args⟩

/-- The export side relay applied to a whole firing trace of the concrete
implementation, in order. -/
def ExportRelayTrace (c : ProxyStringConverter)
    (trace : List (SignalEvent HVal)) : List (SignalEvent String) :=
  trace.map (MakeProxyConnector2Emit c)

/-- The import side relay applied to a whole bus delivery trace, in
order; the facade re-emits each resulting event. -/
def ImportRelayTrace (c : ProxyStringConverter)
    (sigTys : String → List HType) (trace : List (SignalEvent String)) :
    List (SignalEvent HVal) :=
  trace.map (MakeProxyConnector1Emit c sigTys)

/-! ## Export adaptor construction

Embedding of hardbus::internal::ExportAdaptor and of the
ExporAdaptorForTAG constructor generated by
HARDBUS_INTERNAL_DEFINE_EXPORT_ADAPTOR_, which calls it with the Traits
connection, path and service name. The two bool parameters are the
outcomes the transport reports for registerObject and registerService. -/

/-- Registration state on the connection: whether the implementation
object is registered at the path, and whether the service name is owned. -/
structure RegState where
  objectRegistered : Bool
  serviceOwned : Bool
deriving DecidableEq

/-- The configuration exceptions ExportAdaptor can throw, with their
message strings. The service message concatenates the object path, as the
source does. -/
inductive ExportError where
  | cannotRegisterObject (message : String)
  | cannotRegisterService (message : String)
deriving DecidableEq

/-- Embedding of hardbus::internal::ExportAdaptor: registerObject first,
throwing on failure; then registerService, throwing on failure with the
object already registered; no undo and no retry on either path. -/
def ExportAdaptor (registerObject_ok registerService_ok : Bool)
    (object_path service_name : String) (st : RegState) :
    Option ExportError × RegState :=
  if !registerObject_ok then
    (some (ExportError.cannotRegisterObject
        ("Cannot register object at path" ++ object_path)), st)
  else
    let st1 : RegState := ⟨true, st.serviceOwned⟩
    if !registerService_ok then
      (some (ExportError.cannotRegisterService
          ("Cannot register service" ++ object_path)), st1)
    else
      (none, ⟨true, true⟩)

/-- Embedding of the ExporAdaptorForTAG constructor: starting from a
connection on which nothing is registered yet, it runs ExportAdaptor with
the path and service name of the Traits; the suppressed service_name
argument mirrors the constructor call. -/
def ExporAdaptorCtor (tr : Traits) (registerObject_ok registerService_ok : Bool) :
    Option ExportError × RegState :=
  ExportAdaptor registerObject_ok registerService_ok
    tr.dbus_service_path tr.dbus_service_name ⟨false, false⟩

/-! ## Helper lemmas -/

/-- A value whose type is the void type is the no-value constant. -/
theorem typeOf_eq_unit {v : HVal} (h : v.typeOf = HType.unit) :
    v = HVal.unit := by
  cases v <;> first | rfl | simp [HVal.typeOf] at h

/-- Decoding the encoded arguments at their own types recovers the
arguments, for any converter family satisfying the round-trip law. -/
theorem decodeArgs_encode (c : ProxyStringConverter) (hc : RoundTripLaw c)
    (vs : List HVal) :
    decodeArgs c (vs.map HVal.typeOf) (vs.map (ToProxyString c)) = vs := by
  induction vs with
  | nil => rfl
  | cons v rest ih =>
    unfold decodeArgs at ih ⊢
    simp only [List.map_cons, List.zip_cons_cons]
    rw [ih, hc v]

/-- Inversion of a successful ConnectService: the facade was an unbound
access instance, and afterwards it holds the freshly constructed import
adaptor and nothing else changed. -/
theorem connectService_success_state (tr : Traits) (bus : BusState)
    (svc : ServiceObject) (h : (ConnectService tr bus svc).ret = true) :
    ConnectService tr bus svc
      = ⟨true, none, { svc with access := ⟨some (ImportAdaptorCtor tr)⟩ }⟩
    ∧ svc.isAccessInstance = true
    ∧ svc.access.dbus_interface_ = none
    ∧ IsServiceRegistered bus tr.dbus_service_name = true := by
  unfold ConnectService at h ⊢
  by_cases h1 : IsServiceRegistered bus tr.dbus_service_name
  · by_cases h2 : svc.isAccessInstance
    · by_cases h3 : (svc.access.dbus_interface_).isSome
      · simp [h1, h2, h3] at h
      · refine ⟨by simp [h1, h2, h3], h2, ?_, h1⟩
        cases hopt : svc.access.dbus_interface_ with
        | none => rfl
        | some a => rw [hopt] at h3; simp at h3
    · simp [h1, h2] at h
  · simp [h1] at h

/-! ## Claim theorems -/

/-- Claim C1: for every declared method, after a successful connect,
invoking the local facade with typed arguments causes the concrete remote
implementation to be invoked with exactly those argument values, and the
facade call returns exactly the value the implementation returned, under
the hypothesis that the registered codecs of the argument and return
types satisfy the round-trip law. The first conjunct states that the
string arguments arriving at the export side decode to exactly the
original arguments; the second states that the facade call through the
connected binding returns exactly the implementation result. -/
theorem facade_call_marshalling_fidelity
    (c : ProxyStringConverter) (hc : RoundTripLaw c)
    (tr : Traits) (bus : BusState) (svc : ServiceObject)
    (hconn : (ConnectService tr bus svc).ret = true)
    (impl : List HVal → HVal) (argTys : List HType) (retTy : HType)
    (func_name : String) (args : List HVal)
    (hargs : args.map HVal.typeOf = argTys)
    (hret : (impl args).typeOf = retTy) :
    decodeArgs c argTys (args.map (ToProxyString c)) = args ∧
    AccessFunc c retTy ((ConnectService tr bus svc).svc) func_name
        (fun _ strArgs => ExportFunc c impl argTys retTy strArgs) args
      = Except.ok (impl args) := by
  obtain ⟨hstate, -, -, -⟩ := connectService_success_state tr bus svc hconn
  have hdec : decodeArgs c argTys (args.map (ToProxyString c)) = args := by
    subst hargs
    exact decodeArgs_encode c hc args
  refine ⟨hdec, ?_⟩
  rw [hstate]
  show AccessFunc c retTy { svc with access := ⟨some (ImportAdaptorCtor tr)⟩ }
      func_name (fun _ strArgs => ExportFunc c impl argTys retTy strArgs) args
    = Except.ok (impl args)
  unfold AccessFunc ImportFunc ExportFunc
  simp only
  rw [hdec]
  by_cases hu : retTy = HType.unit
  · rw [if_pos hu]
    have himp : impl args = HVal.unit := typeOf_eq_unit (by rw [hret, hu])
    rw [himp]
  · rw [if_neg hu, if_neg hu]
    rw [← hret]
    rw [hc (impl args)]

/-- Witness for C1 at the representative signature of the spec: a method
taking an int and a string and returning a bool, called with 42 and the
one-character string x through a facade connected on a bus owning the
service name. -/
theorem facade_call_marshalling_fidelity_witness :
    decodeArgs DefaultConverter [HType.int, HType.str]
        ([HVal.int 42, HVal.str "x"].map (ToProxyString DefaultConverter))
      = [HVal.int 42, HVal.str "x"] ∧
    AccessFunc DefaultConverter HType.bool
        ((ConnectService ⟨"com.example.Calc", "/calc", "com.example.Calc"⟩
            ⟨["com.example.Calc"]⟩ ⟨true, ⟨none⟩⟩).svc) "check"
        (fun _ strArgs => ExportFunc DefaultConverter
            (fun _ => HVal.bool true) [HType.int, HType.str] HType.bool strArgs)
        [HVal.int 42, HVal.str "x"]
      = Except.ok (HVal.bool true) :=
  facade_call_marshalling_fidelity DefaultConverter default_converter_roundtrip
    ⟨"com.example.Calc", "/calc", "com.example.Calc"⟩ ⟨["com.example.Calc"]⟩
    ⟨true, ⟨none⟩⟩ (by decide) (fun _ => HVal.bool true)
    [HType.int, HType.str] HType.bool "check" [HVal.int 42, HVal.str "x"]
    (by decide) rfl

/-- Claim C2: every method call issued on a freshly constructed local
facade, before any successful connect, fails with the service not
registered error thrown by ProxyCallHelper2, and the concrete remote
implementation is never invoked: the outcome is the same whatever
implementation sits behind the bus route. -/
theorem unbound_facade_call_rejected
    (c : ProxyStringConverter) (retTy : HType) (argTys : List HType)
    (impl1 impl2 : List HVal → HVal) (func_name : String)
    (args : List HVal) :
    AccessFunc c retTy ServiceDef.CreateServiceInterface func_name
        (fun _ strArgs => ExportFunc c impl1 argTys retTy strArgs) args
      = Except.error "service not registered" ∧
    AccessFunc c retTy ServiceDef.CreateServiceInterface func_name
        (fun _ strArgs => ExportFunc c impl1 argTys retTy strArgs) args
      = AccessFunc c retTy ServiceDef.CreateServiceInterface func_name
          (fun _ strArgs => ExportFunc c impl2 argTys retTy strArgs) args :=
  ⟨rfl, rfl⟩

/-- Counterexample to claim C3 as stated: a facade is connected
successfully, the service then drops off the bus, and a further
ConnectService fails with the service-not-registered warning rather than
the reconnect (double connect) warning, because ConnectService checks
registration before the double-connect guard. -/
theorem connect_second_not_always_double_connect_error :
    ((ConnectService ⟨"com.example.Calc", "/calc", "com.example.Calc"⟩
        ⟨["com.example.Calc"]⟩ ⟨true, ⟨none⟩⟩).ret = true) ∧
    ((ConnectService ⟨"com.example.Calc", "/calc", "com.example.Calc"⟩ ⟨[]⟩
        ((ConnectService ⟨"com.example.Calc", "/calc", "com.example.Calc"⟩
            ⟨["com.example.Calc"]⟩ ⟨true, ⟨none⟩⟩).svc)).ret = false) ∧
    ((ConnectService ⟨"com.example.Calc", "/calc", "com.example.Calc"⟩ ⟨[]⟩
        ((ConnectService ⟨"com.example.Calc", "/calc", "com.example.Calc"⟩
            ⟨["com.example.Calc"]⟩ ⟨true, ⟨none⟩⟩).svc)).warn
      ≠ some (Warn.reconnect "com.example.Calc")) ∧
    ((ConnectService ⟨"com.example.Calc", "/calc", "com.example.Calc"⟩ ⟨[]⟩
        ((ConnectService ⟨"com.example.Calc", "/calc", "com.example.Calc"⟩
            ⟨["com.example.Calc"]⟩ ⟨true, ⟨none⟩⟩).svc)).warn
      = some (Warn.serviceNotRegistered "com.example.Calc")) := by
  decide

/-- Claim C3 as amended: once a facade has been successfully connected,
every further ConnectService on it fails and performs no mutation, so the
original import adaptor binding remains in place; the failure carries the
reconnect (double connect) warning whenever the service name is still
registered on the bus at that moment, and the service-not-registered
warning otherwise. -/
theorem connect_after_success_always_fails
    (tr : Traits) (bus1 bus2 : BusState) (svc : ServiceObject)
    (h : (ConnectService tr bus1 svc).ret = true) :
    (ConnectService tr bus2 ((ConnectService tr bus1 svc).svc)).ret = false ∧
    (ConnectService tr bus2 ((ConnectService tr bus1 svc).svc)).svc
      = (ConnectService tr bus1 svc).svc ∧
    (IsServiceRegistered bus2 tr.dbus_service_name = true →
      (ConnectService tr bus2 ((ConnectService tr bus1 svc).svc)).warn
        = some (Warn.reconnect tr.dbus_service_name)) ∧
    (IsServiceRegistered bus2 tr.dbus_service_name = false →
      (ConnectService tr bus2 ((ConnectService tr bus1 svc).svc)).warn
        = some (Warn.serviceNotRegistered tr.dbus_service_name)) := by
  obtain ⟨hstate, hacc, -, -⟩ := connectService_success_state tr bus1 svc h
  rw [hstate]
  by_cases h2 : IsServiceRegistered bus2 tr.dbus_service_name
  · refine ⟨?_, ?_, fun _ => ?_, fun hcontra => ?_⟩
    · simp [ConnectService, h2, hacc]
    · simp [ConnectService, h2, hacc]
    · simp [ConnectService, h2, hacc]
    · rw [h2] at hcontra
      simp at hcontra
  · refine ⟨?_, ?_, fun hcontra => ?_, fun _ => ?_⟩
    · simp [ConnectService, h2]
    · simp [ConnectService, h2]
    · rw [hcontra] at h2
      simp at h2
    · simp [ConnectService, h2]

/-- Witness for the amended C3: a facade connected on a bus owning the
service name; a second ConnectService against the same bus fails with the
reconnect warning and leaves the bound state untouched. -/
theorem connect_after_success_always_fails_witness :
    (ConnectService ⟨"com.example.W", "/w", "com.example.W"⟩
        ⟨["com.example.W"]⟩
        ((ConnectService ⟨"com.example.W", "/w", "com.example.W"⟩
            ⟨["com.example.W"]⟩ ⟨true, ⟨none⟩⟩).svc)).ret = false ∧
    (ConnectService ⟨"com.example.W", "/w", "com.example.W"⟩
        ⟨["com.example.W"]⟩
        ((ConnectService ⟨"com.example.W", "/w", "com.example.W"⟩
            ⟨["com.example.W"]⟩ ⟨true, ⟨none⟩⟩).svc)).svc
      = (ConnectService ⟨"com.example.W", "/w", "com.example.W"⟩
          ⟨["com.example.W"]⟩ ⟨true, ⟨none⟩⟩).svc ∧
    (ConnectService ⟨"com.example.W", "/w", "com.example.W"⟩
        ⟨["com.example.W"]⟩
        ((ConnectService ⟨"com.example.W", "/w", "com.example.W"⟩
            ⟨["com.example.W"]⟩ ⟨true, ⟨none⟩⟩).svc)).warn
      = some (Warn.reconnect "com.example.W") := by
  have H := connect_after_success_always_fails
    ⟨"com.example.W", "/w", "com.example.W"⟩ ⟨["com.example.W"]⟩
    ⟨["com.example.W"]⟩ ⟨true, ⟨none⟩⟩ (by decide)
  exact ⟨H.1, H.2.1, H.2.2.1 (by decide)⟩

/-- Claim C5: WaitAndConnectService is WaitForServiceRegistration followed
by ConnectService, non-atomically: the connect step runs against the bus
state at connect time, and when the service has become unregistered
between the wait returning and the connect step, the connect step fails
with the service-not-registered warning and the facade object is
unchanged, hence still unbound. -/
theorem waitAndConnect_is_wait_then_connect
    (tr : Traits) (busAtConnect : BusState) (svc : ServiceObject) :
    WaitAndConnectService tr busAtConnect svc
      = WaitAndConnectSpec tr busAtConnect svc ∧
    (IsServiceRegistered busAtConnect tr.dbus_service_name = false →
      (WaitAndConnectService tr busAtConnect svc).ret = false ∧
      (WaitAndConnectService tr busAtConnect svc).warn
        = some (Warn.serviceNotRegistered tr.dbus_service_name) ∧
      (WaitAndConnectService tr busAtConnect svc).svc = svc) := by
  constructor
  · rfl
  · intro hreg
    have : WaitAndConnectService tr busAtConnect svc
        = ⟨false, some (Warn.serviceNotRegistered tr.dbus_service_name), svc⟩ := by
      show ConnectService tr busAtConnect svc = _
      unfold ConnectService
      rw [hreg]
      simp
    rw [this]
    exact ⟨rfl, rfl, rfl⟩

/-- Witness for C5: the service name is absent from the bus at connect
time, so the composite fails with the service-not-registered warning and
the fresh facade stays unbound. -/
theorem waitAndConnect_is_wait_then_connect_witness :
    (WaitAndConnectService ⟨"com.example.V", "/v", "com.example.V"⟩ ⟨[]⟩
        ⟨true, ⟨none⟩⟩
      = WaitAndConnectSpec ⟨"com.example.V", "/v", "com.example.V"⟩ ⟨[]⟩
          ⟨true, ⟨none⟩⟩) ∧
    (WaitAndConnectService ⟨"com.example.V", "/v", "com.example.V"⟩ ⟨[]⟩
        ⟨true, ⟨none⟩⟩).ret = false ∧
    (WaitAndConnectService ⟨"com.example.V", "/v", "com.example.V"⟩ ⟨[]⟩
        ⟨true, ⟨none⟩⟩).warn
      = some (Warn.serviceNotRegistered "com.example.V") ∧
    (WaitAndConnectService ⟨"com.example.V", "/v", "com.example.V"⟩ ⟨[]⟩
        ⟨true, ⟨none⟩⟩).svc = ⟨true, ⟨none⟩⟩ := by
  have H := waitAndConnect_is_wait_then_connect
    ⟨"com.example.V", "/v", "com.example.V"⟩ ⟨[]⟩ ⟨true, ⟨none⟩⟩
  exact ⟨H.1, H.2 (by decide)⟩

/-- Claim C6: ConnectService invoked while the service name is not
registered on the bus fails with the service-not-registered warning and
leaves the facade object exactly as it was: no import adaptor is
constructed and the caller may retry. -/
theorem connect_unregistered_fails_no_mutation
    (tr : Traits) (bus : BusState) (svc : ServiceObject)
    (h : IsServiceRegistered bus tr.dbus_service_name = false) :
    ConnectService tr bus svc
      = ⟨false, some (Warn.serviceNotRegistered tr.dbus_service_name), svc⟩ := by
  unfold ConnectService
  rw [h]
  simp

/-- Witness for C6: an unbound facade and an empty bus. -/
theorem connect_unregistered_fails_no_mutation_witness :
    ConnectService ⟨"com.example.U", "/u", "com.example.U"⟩ ⟨[]⟩
        ⟨true, ⟨none⟩⟩
      = ⟨false, some (Warn.serviceNotRegistered "com.example.U"),
          ⟨true, ⟨none⟩⟩⟩ :=
  connect_unregistered_fails_no_mutation
    ⟨"com.example.U", "/u", "com.example.U"⟩ ⟨[]⟩ ⟨true, ⟨none⟩⟩ (by decide)

/-- Claim C7: export adaptor construction registers the implementation
object at the service path and then registers the service name, and the
construction throws a configuration exception exactly when either
registration fails; when object registration fails the service name
registration is never attempted, and on success both registrations hold.
The definition performs one attempt per primitive, so nothing is
retried. -/
theorem export_adaptor_ctor_fatal_on_failure
    (tr : Traits) (objOk svcOk : Bool) :
    ((ExporAdaptorCtor tr objOk svcOk).1 = none
      ↔ (objOk = true ∧ svcOk = true)) ∧
    (objOk = false →
      ExporAdaptorCtor tr objOk svcOk
        = (some (ExportError.cannotRegisterObject
            ("Cannot register object at path" ++ tr.dbus_service_path)),
          ⟨false, false⟩)) ∧
    (objOk = true → svcOk = false →
      ExporAdaptorCtor tr objOk svcOk
        = (some (ExportError.cannotRegisterService
            ("Cannot register service" ++ tr.dbus_service_path)),
          ⟨true, false⟩)) ∧
    (objOk = true → svcOk = true →
      ExporAdaptorCtor tr objOk svcOk = (none, ⟨true, true⟩)) := by
  cases objOk <;> cases svcOk <;>
    simp [ExporAdaptorCtor, ExportAdaptor]

/-- Witness for C7: a failing object registration makes the constructor
throw the object configuration error with nothing registered. -/
theorem export_adaptor_ctor_fatal_on_failure_witness :
    ExporAdaptorCtor ⟨"com.example.E", "/e", "com.example.E"⟩ false true
      = (some (ExportError.cannotRegisterObject
          ("Cannot register object at path" ++ "/e")), ⟨false, false⟩) :=
  (export_adaptor_ctor_fatal_on_failure
    ⟨"com.example.E", "/e", "com.example.E"⟩ false true).2.1 rfl

/-- Claim C8: the relay composed of the export side connector and the
the import side connector maps a firing trace of the concrete implementation
to the identical trace re-emitted on the facade: same events, same order,
same multiplicity, one facade emission per source firing, under the
round-trip law for the signal argument codecs and well-typedness of the
fired arguments against the declared signal signatures. -/
theorem signal_relay_preserves_order
    (c : ProxyStringConverter) (hc : RoundTripLaw c)
    (sigTys : String → List HType) (trace : List (SignalEvent HVal))
    (htyped : ∀ e ∈ trace, e.args.map HVal.typeOf = sigTys e.name) :
    ImportRelayTrace c sigTys (ExportRelayTrace c trace) = trace ∧
    (ImportRelayTrace c sigTys (ExportRelayTrace c trace)).length
      = trace.length := by
  have hmain : ImportRelayTrace c sigTys (ExportRelayTrace c trace) = trace := by
    unfold ImportRelayTrace ExportRelayTrace
    rw [List.map_map]
    have hid : ∀ e ∈ trace,
        (MakeProxyConnector1Emit c sigTys ∘ MakeProxyConnector2Emit c) e = e := by
      intro e he
      show MakeProxyConnector1Emit c sigTys (MakeProxyConnector2Emit c e) = e
      unfold MakeProxyConnector1Emit MakeProxyConnector2Emit
      simp only
      rw [← htyped e he]
      rw [decodeArgs_encode c hc e.args]
    rw [List.map_congr_left hid]
    simp
  exact ⟨hmain, by rw [hmain]⟩

/-- Witness for C8: the implementation fires signal A with an int and then
signal B with a string; the facade re-emits exactly A then B. -/
theorem signal_relay_preserves_order_witness :
    ImportRelayTrace DefaultConverter
        (fun n => if n = "A" then [HType.int] else [HType.str])
        (ExportRelayTrace DefaultConverter
          [⟨"A", [HVal.int 7]⟩, ⟨"B", [HVal.str "x"]⟩])
      = [⟨"A", [HVal.int 7]⟩, ⟨"B", [HVal.str "x"]⟩] ∧
    (ImportRelayTrace DefaultConverter
        (fun n => if n = "A" then [HType.int] else [HType.str])
        (ExportRelayTrace DefaultConverter
          [⟨"A", [HVal.int 7]⟩, ⟨"B", [HVal.str "x"]⟩])).length
      = ([⟨"A", [HVal.int 7]⟩, ⟨"B", [HVal.str "x"]⟩] :
          List (SignalEvent HVal)).length :=
  signal_relay_preserves_order DefaultConverter default_converter_roundtrip
    (fun n => if n = "A" then [HType.int] else [HType.str])
    [⟨"A", [HVal.int 7]⟩, ⟨"B", [HVal.str "x"]⟩] (by decide)

/-- Claim C9: when object path registration succeeds and service name
registration fails, the constructor throws, and the already-completed
object path registration is not undone: the object remains registered on
the connection, so export construction is not atomic on error. -/
theorem export_partial_registration_persists :
    ExporAdaptorCtor ⟨"com.example.P", "/p", "com.example.P"⟩ true false
      = (some (ExportError.cannotRegisterService
          ("Cannot register service" ++ "/p")), ⟨true, false⟩) := by
  decide

/-- Claim C10: CreateAndConnectService returns the newly created facade
object and nothing else; the bool returned by WaitAndConnectService is
discarded, so replacing it by any bool leaves the return value unchanged
and a connection failure is not observable from the return value. The
last conjunct identifies the returned object as the freshly created
facade, mutated only in its dbus_interface_ member. -/
theorem createAndConnect_returns_facade_discarding_result (tr : Traits) :
    ServiceDef.CreateAndConnectService tr
      = (ServiceDef.WaitAndConnectService tr
          ServiceDef.CreateServiceInterface).svc ∧
    (∀ b : Bool, ServiceDef.CreateAndConnectService tr
      = ({ ServiceDef.WaitAndConnectService tr
            ServiceDef.CreateServiceInterface with ret := b }).svc) ∧
    ServiceDef.CreateAndConnectService tr
      = { ServiceDef.CreateServiceInterface with
          access := ⟨some (ImportAdaptorCtor tr)⟩ } := by
  refine ⟨rfl, fun b => rfl, rfl⟩

end Hardbus
